import Mathlib

/-!
Verification development for the virtual PCR-300 MIDI controller
(`src/midi_mapper_with_pyserial_without_midilearn.py`).

The Python source is shallowly embedded: pure numeric code becomes functions
over `ℚ`/`ℤ`/`ℕ`, Python dictionaries become functions into `Option` or
association lists, and the fallible `bytes([...])` constructor becomes an
`Option`-returning function.  Wall-clock instants are modelled as rationals.
-/

namespace PCR300

/-- MIDI channel constant from the source (`CHANNEL = 0`). -/
def CHANNEL : ℕ := 0

/-- `KEYBOARD_BASE_NOTE = 36` from the source. -/
def KEYBOARD_BASE_NOTE : ℕ := 36

/-- `WHITE_KEYS = 42` from the source. -/
def WHITE_KEYS : ℕ := 42

/-- Semitone offsets of black keys inside an octave, from the source
(`semitone_offsets = [1, 3, 6, 8, 10]`). -/
def SEMITONE_OFFSETS : List ℕ := [1, 3, 6, 8, 10]

/-- Python `int()` applied to a rational: truncation toward zero. -/
def pyInt (q : ℚ) : ℤ := if 0 ≤ q then ⌊q⌋ else ⌈q⌉

/-- `min_duration = 0.05` from `on_key_release` / `CircularKnob.release`. -/
def MIN_DURATION : ℚ := 1/20

/-- `max_duration = 0.5` from `on_key_release` / `CircularKnob.release`. -/
def MAX_DURATION : ℚ := 1/2

/-- Velocity from hold duration, exactly as inlined in
`PCR300Virtual.on_key_release` (lines 481-490) and in
`CircularKnob.release` (lines 121-135):
`duration = max(min_duration, min(duration, max_duration))`;
`velocity = int(127 * (1 - (duration - min_duration) / (max_duration - min_duration)))`;
`velocity = max(1, min(127, velocity))`. -/
def velocityOfDuration (d : ℚ) : ℤ :=
  let duration := max MIN_DURATION (min d MAX_DURATION)
  let velocity := pyInt (127 * (1 - (duration - MIN_DURATION) / (MAX_DURATION - MIN_DURATION)))
  max 1 (min 127 velocity)

/-- The velocity formula exactly as the spec words it (with `round` instead of
the source's `int()` truncation); kept separate so the two can be compared for
the refinement claim C1. -/
def specVelocity (press release : ℚ) : ℤ :=
  let duration := max MIN_DURATION (min (release - press) MAX_DURATION)
  let velocity := round (127 * (1 - (duration - MIN_DURATION) / (MAX_DURATION - MIN_DURATION)))
  max 1 (min 127 velocity)

/-- The tagged MIDI message variant of the data model. -/
inductive MidiMessage where
  | controlChange (channel control value : ℕ)
  | noteOn (channel note velocity : ℕ)
  | noteOff (channel note velocity : ℕ)
deriving DecidableEq, Repr

/-- Python `bytes([...])`: every element must lie in 0..255, otherwise a
`ValueError` is raised (modelled as `none`). -/
def pyBytes (l : List ℕ) : Option (List ℕ) :=
  if l.all (fun b => b < 256) then some l else none

/-- The 3-byte packing performed by `send_control_change` (line 519-520),
`send_note_on` (line 534-535) and `send_note_off` (line 550-551):
`status = 0xB0 | (CHANNEL & 0x0F)` (resp. `0x90`, `0x80`) followed by
`bytes([status, data1, data2])`. -/
def encodeMessage : MidiMessage → Option (List ℕ)
  | .controlChange ch c v => pyBytes [0xB0 ||| (ch &&& 0x0F), c, v]
  | .noteOn ch n v => pyBytes [0x90 ||| (ch &&& 0x0F), n, v]
  | .noteOff ch n v => pyBytes [0x80 ||| (ch &&& 0x0F), n, v]

/-- Modelled from the spec: the repository contains no byte-level decoder (the
MIDI input path consumes structured `mido` messages, never raw bytes), so the
decoder is taken from the spec's wire-format contract: status byte
`(0x80 | channel)` for NoteOff, `(0x90 | channel)` for NoteOn,
`(0xB0 | channel)` for ControlChange, followed by the two data bytes. -/
def decodeMessage : List ℕ → Option MidiMessage
  | [s, d1, d2] =>
    if s &&& 0xF0 = 0xB0 then some (.controlChange (s &&& 0x0F) d1 d2)
    else if s &&& 0xF0 = 0x90 then some (.noteOn (s &&& 0x0F) d1 d2)
    else if s &&& 0xF0 = 0x80 then some (.noteOff (s &&& 0x0F) d1 d2)
    else none
  | _ => none

/-! ### Knob widget (`CircularKnob`) -/

/-- The mutable fields of a `CircularKnob` relevant to value handling:
`min_val`, `max_val` (0 and 127 for every knob the app creates) and the
current `value`. -/
structure KnobState where
  min_val : ℤ
  max_val : ℤ
  value : ℤ
deriving DecidableEq, Repr

/-- `CircularKnob.set_value` (lines 101-111):
`value = max(self.min_val, min(self.max_val, value))`; if the clamped value
differs from the stored one, it is stored and the `command` callback is
invoked with it (the emitted value is returned as `some`); otherwise nothing
happens. -/
def setValue (k : KnobState) (v : ℤ) : KnobState × Option ℤ :=
  let v' := max k.min_val (min k.max_val v)
  if v' ≠ k.value then ({ k with value := v' }, some v') else (k, none)

/-! ### Button toggle state (`on_button_press`) -/

/-- `create_main_interface` (lines 312-317) initialises
`button_states[name] = False` for every button. -/
def initialButtonStates : String → Bool := fun _ => false

/-- `PCR300Virtual.on_button_press` (lines 361-375): toggle the stored flag
for `btn_name`, then send CC `cc_num` with value 127 when the new flag is
set and 0 otherwise.  Returns the new state table and the emitted message. -/
def onButtonPress (states : String → Bool) (name : String) (cc : ℕ) :
    (String → Bool) × MidiMessage :=
  let states' := Function.update states name (!states name)
  (states', .controlChange CHANNEL cc (if states' name then 127 else 0))

/-! ### Virtual keyboard (`on_key_press` / `on_key_release` /
`press_virtual_key`) -/

/-- Mapping of a canvas item id to its MIDI note, as recomputed in
`on_key_press` (lines 444-458) and `on_key_release` (lines 492-504): white
keys get `KEYBOARD_BASE_NOTE + index`, black keys get
`KEYBOARD_BASE_NOTE + 12 * (index / 5) + semitone_offsets[index % 5]`;
an item in neither list is ignored. -/
def noteOfKey (whiteIds blackIds : List ℕ) (item : ℕ) : Option ℕ :=
  if item ∈ whiteIds then
    some (KEYBOARD_BASE_NOTE + whiteIds.indexOf item)
  else if item ∈ blackIds then
    let i := blackIds.indexOf item
    some (KEYBOARD_BASE_NOTE + (i / 5) * 12 + SEMITONE_OFFSETS.getD (i % 5) 0)
  else none

/-- `PCR300Virtual.on_key_press` (lines 437-466): record the press time in
`key_press_times`, then (when the item is a key) send Note On with the fixed
velocity 100.  Returns the new press-time table and the emitted message. -/
def onKeyPress (whiteIds blackIds : List ℕ) (t : ℕ → Option ℚ) (item : ℕ) (now : ℚ) :
    (ℕ → Option ℚ) × Option MidiMessage :=
  let t' := Function.update t item (some now)
  match noteOfKey whiteIds blackIds item with
  | none => (t', none)
  | some note => (t', some (.noteOn CHANNEL note 100))

/-- `PCR300Virtual.on_key_release` (lines 468-508):
`press_time = key_press_times.pop(item_id, None)`; when no press is
recorded, return immediately (table unchanged, no message); otherwise the
record is removed, the hold duration is mapped to a velocity and (when the
item is a key) Note Off is sent with that velocity. -/
def onKeyRelease (whiteIds blackIds : List ℕ) (t : ℕ → Option ℚ) (item : ℕ) (now : ℚ) :
    (ℕ → Option ℚ) × Option MidiMessage :=
  match t item with
  | none => (t, none)
  | some pressTime =>
    let t' := Function.update t item none
    let vel := velocityOfDuration (now - pressTime)
    match noteOfKey whiteIds blackIds item with
    | none => (t', none)
    | some note => (t', some (.noteOff CHANNEL note vel.toNat))

/-- Note of the i-th white key rectangle (`note = KEYBOARD_BASE_NOTE + i`,
line 718). -/
def whiteNote (i : ℕ) : ℕ := KEYBOARD_BASE_NOTE + i

/-- Note of the i-th black key rectangle (lines 725-728). -/
def blackNote (i : ℕ) : ℕ :=
  KEYBOARD_BASE_NOTE + (i / 5) * 12 + SEMITONE_OFFSETS.getD (i % 5) 0

/-- Number of black-key rectangles drawn by `create_virtual_keyboard`:
5 per octave over 6 octaves, none skipped since `5 * 7 + 6 < 42`. -/
def BLACK_KEY_COUNT : ℕ := 30

/-- `PCR300Virtual.press_virtual_key` (lines 713-733): scan the white
rectangles and, on a note match, send Note On with the velocity argument
(default 100); then scan the black rectangles likewise (the `break` leaves
only the loop it is in, so both loops run).  Returns the emitted messages in
order. -/
def pressVirtualKey (virtualNote : ℕ) (velocity : ℕ := 100) : List MidiMessage :=
  (if (List.range WHITE_KEYS).any (fun i => whiteNote i == virtualNote) then
    [MidiMessage.noteOn CHANNEL virtualNote velocity] else []) ++
  (if (List.range BLACK_KEY_COUNT).any (fun i => blackNote i == virtualNote) then
    [MidiMessage.noteOn CHANNEL virtualNote velocity] else [])

/-! ### Application state: serial transport and the active-note dictionary -/

/-- The stateful part of `PCR300Virtual` touched by the note senders:
whether the serial connection is open, the `active_notes` dictionary
(association list keyed by note, keys unique as in a Python dict) and the
sequence of messages successfully written to the transport. -/
structure AppState where
  serialOpen : Bool
  activeNotes : List (ℕ × ℕ)
  written : List MidiMessage
deriving DecidableEq, Repr

/-- Python dict assignment `d[k] = v`: overwrite an existing entry for `k`,
else append. -/
def dictInsert (k v : ℕ) (l : List (ℕ × ℕ)) : List (ℕ × ℕ) :=
  if l.any (fun p => p.1 == k) then
    l.map (fun p => if p.1 == k then (k, v) else p)
  else l ++ [(k, v)]

/-- Python `if k in d: del d[k]`: drop the entry for `k` when present. -/
def dictErase (k : ℕ) (l : List (ℕ × ℕ)) : List (ℕ × ℕ) :=
  l.filter (fun p => p.1 != k)

/-- `PCR300Virtual.send_note_on` (lines 529-543): when the serial connection
is open, write the 3-byte Note On; on a successful write (`writeOk`) record
the note in `active_notes`.  A failed write is caught and changes nothing;
with the connection closed nothing happens. -/
def sendNoteOn (writeOk : Bool) (st : AppState) (note velocity : ℕ) : AppState :=
  if st.serialOpen then
    if writeOk then
      { st with
        written := st.written ++ [.noteOn CHANNEL note velocity],
        activeNotes := dictInsert note velocity st.activeNotes }
    else st
  else st

/-- `PCR300Virtual.send_note_off` (lines 545-560): when the serial connection
is open, write the 3-byte Note Off; on a successful write delete the note
from `active_notes` when present. -/
def sendNoteOff (writeOk : Bool) (st : AppState) (note velocity : ℕ) : AppState :=
  if st.serialOpen then
    if writeOk then
      { st with
        written := st.written ++ [.noteOff CHANNEL note velocity],
        activeNotes := dictErase note st.activeNotes }
    else st
  else st

/-- `PCR300Virtual.on_closing` (lines 758-769): when the serial connection is
open, send Note Off for every entry of a snapshot of `active_notes`
(`list(self.active_notes.items())`), then close the connection.  Writes
during shutdown are modelled as succeeding (the transport is still open). -/
def onClosing (st : AppState) : AppState :=
  if st.serialOpen then
    let st' := st.activeNotes.foldl (fun s p => sendNoteOff true s p.1 p.2) st
    { st' with serialOpen := false }
  else st

/-! ## Helper lemmas -/

lemma pyInt_eq_floor (q : ℚ) (h : 0 ≤ q) : pyInt q = ⌊q⌋ := if_pos h

lemma pyBytes_of_lt (a b c : ℕ) (ha : a < 256) (hb : b < 256) (hc : c < 256) :
    pyBytes [a, b, c] = some [a, b, c] := by
  simp [pyBytes, ha, hb, hc]

lemma channel_bit_facts (ch : ℕ) (h : ch < 16) :
    ch &&& 0x0F = ch ∧
    0xB0 ||| ch < 256 ∧ 0x90 ||| ch < 256 ∧ 0x80 ||| ch < 256 ∧
    (0xB0 ||| ch) &&& 0xF0 = 0xB0 ∧ (0x90 ||| ch) &&& 0xF0 = 0x90 ∧
    (0x80 ||| ch) &&& 0xF0 = 0x80 ∧
    (0xB0 ||| ch) &&& 0x0F = ch ∧ (0x90 ||| ch) &&& 0x0F = ch ∧
    (0x80 ||| ch) &&& 0x0F = ch := by
  interval_cases ch <;> decide

lemma encode_eq (ch d1 d2 : ℕ) (hch : ch < 16) (h1 : d1 < 128) (h2 : d2 < 128) :
    encodeMessage (.controlChange ch d1 d2) = some [0xB0 ||| ch, d1, d2] ∧
    encodeMessage (.noteOn ch d1 d2) = some [0x90 ||| ch, d1, d2] ∧
    encodeMessage (.noteOff ch d1 d2) = some [0x80 ||| ch, d1, d2] := by
  obtain ⟨hmask, hb, h9, h8, -, -, -, -, -, -⟩ := channel_bit_facts ch hch
  refine ⟨?_, ?_, ?_⟩ <;>
    simp only [encodeMessage, hmask] <;>
    exact pyBytes_of_lt _ _ _ (by omega) (by omega) (by omega)

/-! ## Claims -/

/-- C2: encoding a `MidiMessage` produces exactly 3 bytes, with status byte
`0x80 | channel` for NoteOff, `0x90 | channel` for NoteOn and
`0xB0 | channel` for ControlChange, followed by the two data bytes, for
every channel in 0-15 and data bytes in 0-127. -/
theorem encode_produces_three_bytes (ch d1 d2 : ℕ)
    (hch : ch < 16) (h1 : d1 < 128) (h2 : d2 < 128) :
    encodeMessage (.controlChange ch d1 d2) = some [0xB0 ||| ch, d1, d2] ∧
    encodeMessage (.noteOn ch d1 d2) = some [0x90 ||| ch, d1, d2] ∧
    encodeMessage (.noteOff ch d1 d2) = some [0x80 ||| ch, d1, d2] ∧
    ([0xB0 ||| ch, d1, d2] : List ℕ).length = 3 ∧
    ([0x90 ||| ch, d1, d2] : List ℕ).length = 3 ∧
    ([0x80 ||| ch, d1, d2] : List ℕ).length = 3 := by
  obtain ⟨hc, hn, hf⟩ := encode_eq ch d1 d2 hch h1 h2
  exact ⟨hc, hn, hf, rfl, rfl, rfl⟩

/-- Witness for C2 at channel 3, data bytes 0x11 and 100. -/
theorem encode_produces_three_bytes_witness :
    encodeMessage (.controlChange 3 0x11 100) = some [0xB3, 0x11, 100] ∧
    encodeMessage (.noteOn 3 0x11 100) = some [0x93, 0x11, 100] ∧
    encodeMessage (.noteOff 3 0x11 100) = some [0x83, 0x11, 100] := by
  obtain ⟨hc, hn, hf, -, -, -⟩ :=
    encode_produces_three_bytes 3 0x11 100 (by decide) (by decide) (by decide)
  exact ⟨by rw [hc]; decide, by rw [hn]; decide, by rw [hf]; decide⟩

/-- C8: for every ControlChange, NoteOn or NoteOff message with channel in
0-15 and data bytes in 0-127, decoding the 3-byte encoding recovers the
original message (variant and field triple). -/
theorem encode_decode_roundtrip (ch d1 d2 : ℕ)
    (hch : ch < 16) (h1 : d1 < 128) (h2 : d2 < 128) :
    (encodeMessage (.controlChange ch d1 d2)).bind decodeMessage
      = some (.controlChange ch d1 d2) ∧
    (encodeMessage (.noteOn ch d1 d2)).bind decodeMessage
      = some (.noteOn ch d1 d2) ∧
    (encodeMessage (.noteOff ch d1 d2)).bind decodeMessage
      = some (.noteOff ch d1 d2) := by
  obtain ⟨hmask, hb, h9, h8, hbm, h9m, h8m, hblo, h9lo, h8lo⟩ := channel_bit_facts ch hch
  obtain ⟨hc, hn, hf⟩ := encode_eq ch d1 d2 hch h1 h2
  refine ⟨?_, ?_, ?_⟩
  · rw [hc]
    simp [decodeMessage, hbm, hblo]
  · rw [hn]
    simp [decodeMessage, h9m, h9lo]
  · rw [hf]
    simp [decodeMessage, h8m, h8lo]

/-- Witness for C8 at channel 3, data bytes 60 and 100. -/
theorem encode_decode_roundtrip_witness :
    (encodeMessage (.controlChange 3 60 100)).bind decodeMessage
      = some (.controlChange 3 60 100) ∧
    (encodeMessage (.noteOn 3 60 100)).bind decodeMessage
      = some (.noteOn 3 60 100) ∧
    (encodeMessage (.noteOff 3 60 100)).bind decodeMessage
      = some (.noteOff 3 60 100) :=
  encode_decode_roundtrip 3 60 100 (by decide) (by decide) (by decide)

lemma max_min_le_max_duration (d : ℚ) :
    max MIN_DURATION (min d MAX_DURATION) ≤ MAX_DURATION :=
  max_le (by rw [MIN_DURATION, MAX_DURATION]; norm_num) (min_le_right _ _)

lemma raw_velocity_nonneg (d : ℚ) :
    0 ≤ 127 * (1 - (max MIN_DURATION (min d MAX_DURATION) - MIN_DURATION)
      / (MAX_DURATION - MIN_DURATION)) := by
  have hle := max_min_le_max_duration d
  have hpos : (0:ℚ) < MAX_DURATION - MIN_DURATION := by
    rw [MIN_DURATION, MAX_DURATION]; norm_num
  have hr : (max MIN_DURATION (min d MAX_DURATION) - MIN_DURATION)
      / (MAX_DURATION - MIN_DURATION) ≤ 1 := by
    rw [div_le_one hpos]; linarith
  linarith

lemma velocityOfDuration_eq_floor (d : ℚ) :
    velocityOfDuration d = max 1 (min 127
      ⌊127 * (1 - (max MIN_DURATION (min d MAX_DURATION) - MIN_DURATION)
        / (MAX_DURATION - MIN_DURATION))⌋) := by
  simp only [velocityOfDuration]
  rw [pyInt_eq_floor _ (raw_velocity_nonneg d)]

/-- C3: every hold duration at most 0.05 s maps to velocity 127, and every
hold duration at least 0.5 s maps to velocity 1. -/
theorem velocity_saturates (d : ℚ) :
    (d ≤ MIN_DURATION → velocityOfDuration d = 127) ∧
    (MAX_DURATION ≤ d → velocityOfDuration d = 1) := by
  constructor
  · intro hd
    have h1 : min d MAX_DURATION = d :=
      min_eq_left (hd.trans (by rw [MIN_DURATION, MAX_DURATION]; norm_num))
    have h2 : max MIN_DURATION d = MIN_DURATION := max_eq_left hd
    simp only [velocityOfDuration, h1, h2]
    norm_num [pyInt, MIN_DURATION, MAX_DURATION, min_def, max_def, Int.floor_eq_iff]
  · intro hd
    have h1 : min d MAX_DURATION = MAX_DURATION := min_eq_right hd
    have h2 : max MIN_DURATION MAX_DURATION = MAX_DURATION :=
      max_eq_right (by rw [MIN_DURATION, MAX_DURATION]; norm_num)
    simp only [velocityOfDuration, h1, h2]
    norm_num [pyInt, MIN_DURATION, MAX_DURATION, min_def, max_def, Int.floor_eq_iff]

/-- Witness for C3 at durations 0.01 s and 0.75 s. -/
theorem velocity_saturates_witness :
    velocityOfDuration (1/100) = 127 ∧ velocityOfDuration (3/4) = 1 :=
  ⟨(velocity_saturates (1/100)).1 (by rw [MIN_DURATION]; norm_num),
   (velocity_saturates (3/4)).2 (by rw [MAX_DURATION]; norm_num)⟩

/-- C6: within [0.05, 0.5] the computed velocity is monotonically
non-increasing in the hold duration. -/
theorem velocity_antitone (d1 d2 : ℚ)
    (h1 : MIN_DURATION ≤ d1) (h12 : d1 ≤ d2) (h2 : d2 ≤ MAX_DURATION) :
    velocityOfDuration d2 ≤ velocityOfDuration d1 := by
  rw [velocityOfDuration_eq_floor, velocityOfDuration_eq_floor]
  have e1 : max MIN_DURATION (min d1 MAX_DURATION) = d1 := by
    rw [min_eq_left (h12.trans h2)]; exact max_eq_right h1
  have e2 : max MIN_DURATION (min d2 MAX_DURATION) = d2 := by
    rw [min_eq_left h2]; exact max_eq_right (h1.trans h12)
  rw [e1, e2]
  have hpos : (0:ℚ) < MAX_DURATION - MIN_DURATION := by
    rw [MIN_DURATION, MAX_DURATION]; norm_num
  have hdiv : (d1 - MIN_DURATION) / (MAX_DURATION - MIN_DURATION)
      ≤ (d2 - MIN_DURATION) / (MAX_DURATION - MIN_DURATION) :=
    (div_le_div_iff_of_pos_right hpos).mpr (by linarith)
  have hraw : 127 * (1 - (d2 - MIN_DURATION) / (MAX_DURATION - MIN_DURATION))
      ≤ 127 * (1 - (d1 - MIN_DURATION) / (MAX_DURATION - MIN_DURATION)) := by
    linarith
  exact max_le_max le_rfl (min_le_min le_rfl (Int.floor_le_floor hraw))

/-- Witness for C6 at durations 0.1 s and 0.2 s. -/
theorem velocity_antitone_witness :
    velocityOfDuration (1/5) ≤ velocityOfDuration (1/10) :=
  velocity_antitone (1/10) (1/5)
    (by rw [MIN_DURATION]; norm_num) (by norm_num) (by rw [MAX_DURATION]; norm_num)

/-- C1 counterexample: at press 0 s, release 0.275 s the code's `int()`
truncation yields velocity 63, while the claimed `round`-based formula
yields 64; the key-release event therefore does not produce the claimed
value. -/
theorem velocity_round_claim_counterexample :
    (onKeyRelease [1] [] (fun i => if i = 1 then some 0 else none) 1 (11/40)).2
      = some (.noteOff CHANNEL 36 63) ∧
    specVelocity 0 (11/40) = 64 ∧
    velocityOfDuration (11/40 - 0) ≠ specVelocity 0 (11/40) := by
  have hv : velocityOfDuration (11/40) = 63 := by
    norm_num [velocityOfDuration, pyInt, MIN_DURATION, MAX_DURATION, min_def, max_def,
      Int.floor_eq_iff]
  have hv' : velocityOfDuration (11/40 - 0) = 63 := by
    rw [show ((11:ℚ)/40 - 0) = 11/40 by norm_num]; exact hv
  have hs : specVelocity 0 (11/40) = 64 := by
    norm_num [specVelocity, MIN_DURATION, MAX_DURATION, min_def, max_def, round_eq,
      Int.floor_eq_iff]
  refine ⟨?_, hs, by rw [hv', hs]; decide⟩
  simp [onKeyRelease, noteOfKey, hv, KEYBOARD_BASE_NOTE, CHANNEL]

/-- C1 amended: the velocity attached to the Note Off emitted on key
release equals `clamp(trunc(127 * (1 - (clamp(r - p, 0.05, 0.5) - 0.05)
/ (0.5 - 0.05))), 1, 127)` — truncation toward zero (here equal to the
floor, the argument being non-negative), not rounding; in particular a
press at t = 0 s released at t = 0.275 s yields velocity 63. -/
theorem key_release_velocity_formula (w b : List ℕ) (t : ℕ → Option ℚ)
    (item : ℕ) (p r : ℚ) (note : ℕ)
    (hp : t item = some p) (hn : noteOfKey w b item = some note) :
    (onKeyRelease w b t item r).2 = some (.noteOff CHANNEL note
      (max 1 (min 127
        ⌊127 * (1 - (max MIN_DURATION (min (r - p) MAX_DURATION) - MIN_DURATION)
          / (MAX_DURATION - MIN_DURATION))⌋)).toNat) ∧
    velocityOfDuration (11/40 - 0) = 63 := by
  constructor
  · simp only [onKeyRelease, hp, hn]
    rw [velocityOfDuration_eq_floor]
  · norm_num [velocityOfDuration, pyInt, MIN_DURATION, MAX_DURATION, min_def, max_def,
      Int.floor_eq_iff]

/-- Witness for the amended C1 at press 0 s, release 0.275 s. -/
theorem key_release_velocity_formula_witness :
    (onKeyRelease [1] [] (fun i => if i = 1 then some 0 else none) 1 (11/40)).2
      = some (.noteOff CHANNEL 36
        (max 1 (min 127
          ⌊127 * (1 - (max MIN_DURATION (min ((11:ℚ)/40 - 0) MAX_DURATION) - MIN_DURATION)
            / (MAX_DURATION - MIN_DURATION))⌋)).toNat) ∧
    velocityOfDuration (11/40 - 0) = 63 :=
  key_release_velocity_formula [1] [] (fun i => if i = 1 then some 0 else none)
    1 0 (11/40) 36 (by simp) (by decide)

/-- C4: from the initial all-false toggle state, two consecutive
activations of the same button emit ControlChange values 127 then 0, and
toggle state is tracked per control name: activating one button changes
neither another button's stored flag nor the value that other button emits
next. -/
theorem button_toggle_per_name (b b' : String) (cc cc' : ℕ) (s : String → Bool)
    (hne : b' ≠ b) :
    (onButtonPress initialButtonStates b cc).2 = .controlChange CHANNEL cc 127 ∧
    (onButtonPress (onButtonPress initialButtonStates b cc).1 b cc).2
      = .controlChange CHANNEL cc 0 ∧
    (onButtonPress s b cc).1 b' = s b' ∧
    (onButtonPress (onButtonPress s b cc).1 b' cc').2 = (onButtonPress s b' cc').2 := by
  refine ⟨?_, ?_, ?_, ?_⟩
  · simp [onButtonPress, initialButtonStates]
  · simp [onButtonPress, initialButtonStates]
  · simp [onButtonPress, Function.update_noteq hne]
  · simp [onButtonPress, Function.update_noteq hne]

/-- Witness for C4 with buttons A1 and A2 (CC 0x50). -/
theorem button_toggle_per_name_witness :
    (onButtonPress initialButtonStates "A1" 0x50).2
      = .controlChange CHANNEL 0x50 127 ∧
    (onButtonPress (onButtonPress initialButtonStates "A1" 0x50).1 "A1" 0x50).2
      = .controlChange CHANNEL 0x50 0 ∧
    (onButtonPress initialButtonStates "A1" 0x50).1 "A2"
      = initialButtonStates "A2" ∧
    (onButtonPress (onButtonPress initialButtonStates "A1" 0x50).1 "A2" 0x50).2
      = (onButtonPress initialButtonStates "A2" 0x50).2 :=
  button_toggle_per_name "A1" "A2" 0x50 0x50 initialButtonStates (by decide)

/-- C5: a key release whose key has no recorded press leaves the press-time
table unchanged and emits no message; when a press record exists, the
release removes it from the table. -/
theorem key_release_without_press_noop (w b : List ℕ) (t : ℕ → Option ℚ)
    (item : ℕ) (now : ℚ) :
    (t item = none → onKeyRelease w b t item now = (t, none)) ∧
    (∀ p, t item = some p → (onKeyRelease w b t item now).1 item = none) := by
  constructor
  · intro h
    simp [onKeyRelease, h]
  · intro p hp
    cases hk : noteOfKey w b item <;>
      simp [onKeyRelease, hp, hk]

/-- Witness for C5: release without a press on item 1 is a no-op; release
after a press at time 0 removes the record for item 1. -/
theorem key_release_without_press_noop_witness :
    onKeyRelease [1] [] (fun _ => none) 1 0 = ((fun _ => none), none) ∧
    (onKeyRelease [1] [] (fun i => if i = 1 then some 0 else none) 1 1).1 1 = none :=
  ⟨(key_release_without_press_noop [1] [] (fun _ => none) 1 0).1 rfl,
   (key_release_without_press_noop [1] [] (fun i => if i = 1 then some 0 else none) 1 1).2
     0 (by simp)⟩

/-- C7 counterexample: `send_control_change` does not clamp.  Value 200 (out
of 0-127) is emitted verbatim as the third byte, not as 127, and value 300
makes the `bytes` construction raise instead of clamping. -/
theorem control_value_clamp_counterexample :
    encodeMessage (.controlChange CHANNEL 0x11 200) = some [0xB0, 0x11, 200] ∧
    (200 : ℕ) ≠ 127 ∧
    encodeMessage (.controlChange CHANNEL 0x11 300) = none := by
  exact ⟨by decide, by decide, by decide⟩

/-- C7 amended: the Control Encoder (`send_control_change`) performs no
clamping — a control value in 128-255 is emitted verbatim and a value above
255 raises an error (no message is emitted); clamping to 0-127 happens only
in `CircularKnob.set_value`, which clamps its input to `[min_val, max_val]`
(0 and 127 for every knob the app creates) before invoking its command
callback. -/
theorem control_encoder_no_clamp_knob_clamps (c v : ℕ) (k : KnobState) (x : ℤ)
    (hc : c < 256) (hv : v < 256) (hmin : k.min_val = 0) (hmax : k.max_val = 127) :
    encodeMessage (.controlChange CHANNEL c v) = some [0xB0, c, v] ∧
    (∀ v', 255 < v' → encodeMessage (.controlChange CHANNEL c v') = none) ∧
    (setValue k x).1.value = max 0 (min 127 x) ∧
    (∀ y, (setValue k x).2 = some y → y = max 0 (min 127 x)) := by
  refine ⟨?_, ?_, ?_, ?_⟩
  · show pyBytes [0xB0 ||| (CHANNEL &&& 0x0F), c, v] = some [0xB0, c, v]
    rw [show 0xB0 ||| (CHANNEL &&& 0x0F) = 0xB0 from by decide]
    exact pyBytes_of_lt _ _ _ (by decide) hc hv
  · intro v' hv'
    simp only [encodeMessage, pyBytes]
    rw [if_neg]
    simp only [List.all_cons, List.all_nil, Bool.and_eq_true, decide_eq_true_eq]
    omega
  · simp only [setValue, hmin, hmax]
    split <;> rename_i h
    · rfl
    · push_neg at h
      simpa using h.symm
  · intro y hy
    simp only [setValue, hmin, hmax] at hy
    split at hy
    · simpa using hy.symm
    · simp at hy

/-- Witness for the amended C7: `c = 0x11`, `v = 200`, a knob at value 64
asked to take value 300. -/
theorem control_encoder_no_clamp_knob_clamps_witness :
    encodeMessage (.controlChange CHANNEL 0x11 200) = some [0xB0, 0x11, 200] ∧
    encodeMessage (.controlChange CHANNEL 0x11 300) = none ∧
    (setValue ⟨0, 127, 64⟩ 300).1.value = max 0 (min 127 300) := by
  obtain ⟨h1, h2, h3, -⟩ := control_encoder_no_clamp_knob_clamps 0x11 200 ⟨0, 127, 64⟩ 300
    (by decide) (by decide) rfl rfl
  exact ⟨h1, h2 300 (by decide), h3⟩

/-- C9 counterexample: `press_virtual_key` (reached from MIDI input) emits a
Note On carrying its caller-supplied velocity — here 77, not the fixed
100 — so not every Note On emitted by a key press carries velocity 100. -/
theorem virtual_key_velocity_counterexample :
    pressVirtualKey 36 77 = [MidiMessage.noteOn CHANNEL 36 77] ∧ (77 : ℕ) ≠ 100 := by
  exact ⟨by decide, by decide⟩

/-- C9 amended: the duration-derived velocity is attached only to the Note
Off message; every Note On emitted by a GUI key press (`on_key_press`)
carries the fixed velocity 100, while a Note On emitted by
`press_virtual_key` carries the velocity its caller passes (100 by default;
the MIDI-input path passes the incoming message's velocity). -/
theorem noteon_velocity_sources :
    (∀ w b t item now m, (onKeyPress w b t item now).2 = some m →
        ∃ note, m = MidiMessage.noteOn CHANNEL note 100) ∧
    (∀ w b t item now m, (onKeyRelease w b t item now).2 = some m →
        ∃ note p, t item = some p ∧
          m = MidiMessage.noteOff CHANNEL note (velocityOfDuration (now - p)).toNat) ∧
    (∀ vnote vel m, m ∈ pressVirtualKey vnote vel →
        m = MidiMessage.noteOn CHANNEL vnote vel) := by
  refine ⟨?_, ?_, ?_⟩
  · intro w b t item now m hm
    cases hk : noteOfKey w b item <;> simp [onKeyPress, hk] at hm
    exact ⟨_, hm.symm⟩
  · intro w b t item now m hm
    cases ht : t item with
    | none => simp [onKeyRelease, ht] at hm
    | some p =>
      cases hk : noteOfKey w b item with
      | none => simp [onKeyRelease, ht, hk] at hm
      | some note =>
        simp only [onKeyRelease, ht, hk, Option.some_inj] at hm
        exact ⟨note, p, rfl, hm.symm⟩
  · intro vnote vel m hm
    unfold pressVirtualKey at hm
    rcases List.mem_append.mp hm with h | h <;> split at h <;> simp_all

/-- Witness for the amended C9: a GUI press of item 1 (note 36), a release
at 0.275 s after a press at 0 s, and a virtual key press with velocity 77. -/
theorem noteon_velocity_sources_witness :
    (∃ note, MidiMessage.noteOn CHANNEL 36 100 = MidiMessage.noteOn CHANNEL note 100) ∧
    (∃ note p, (fun i => if i = 1 then some (0:ℚ) else none) 1 = some p ∧
      MidiMessage.noteOff CHANNEL 36 (velocityOfDuration ((11:ℚ)/40 - 0)).toNat
        = MidiMessage.noteOff CHANNEL note (velocityOfDuration ((11:ℚ)/40 - p)).toNat) ∧
    MidiMessage.noteOn CHANNEL 36 77 = MidiMessage.noteOn CHANNEL 36 77 := by
  refine ⟨?_, ?_, ?_⟩
  · exact noteon_velocity_sources.1 [1] [] (fun _ => none) 1 0
      (MidiMessage.noteOn CHANNEL 36 100) (by decide)
  · exact noteon_velocity_sources.2.1 [1] [] (fun i => if i = 1 then some (0:ℚ) else none)
      1 (11/40) (MidiMessage.noteOff CHANNEL 36 (velocityOfDuration ((11:ℚ)/40 - 0)).toNat)
      (by simp [onKeyRelease, noteOfKey, KEYBOARD_BASE_NOTE])
  · exact noteon_velocity_sources.2.2 36 77 (MidiMessage.noteOn CHANNEL 36 77) (by decide)

lemma lookup_dictInsert (k v : ℕ) (l : List (ℕ × ℕ)) :
    (dictInsert k v l).lookup k = some v := by
  unfold dictInsert
  split <;> rename_i h
  · induction l with
    | nil => simp at h
    | cons a tl ih =>
      by_cases ha : a.1 = k
      · have hb : (a.1 == k) = true := by simp [ha]
        rw [List.map_cons, if_pos hb]
        simp [List.lookup]
      · have hb : (a.1 == k) = false := by simp [ha]
        have hk : (k == a.1) = false := by simp [Ne.symm ha]
        simp only [List.map_cons, hb, Bool.false_eq_true, if_neg, ite_false]
        simp only [List.lookup, hk]
        apply ih
        simpa [List.any_cons, hb] using h
  · induction l with
    | nil => simp [List.lookup]
    | cons a tl ih =>
      have hb : (a.1 == k) = false := by
        by_contra hc
        simp only [Bool.not_eq_false, beq_iff_eq] at hc
        exact h (by simp [List.any_cons, hc])
      have hk : (k == a.1) = false := by
        simpa [BEq.comm] using hb
      simp only [List.cons_append, List.lookup, hk]
      exact ih (fun hc => h (by simp [List.any_cons]; right; simpa [List.any_eq_true] using hc))

lemma lookup_dictErase (k : ℕ) (l : List (ℕ × ℕ)) :
    (dictErase k l).lookup k = none := by
  unfold dictErase
  induction l with
  | nil => simp [List.lookup]
  | cons a tl ih =>
    by_cases ha : a.1 = k
    · simpa [List.filter_cons, ha] using ih
    · have hb : (a.1 != k) = true := by simp [ha]
      have hk : (k == a.1) = false := by simp [Ne.symm ha]
      simp only [List.filter_cons, hb, if_pos, List.lookup, hk]
      exact ih

lemma foldl_dictErase_eq_filter (l m : List (ℕ × ℕ)) :
    l.foldl (fun acc p => dictErase p.1 acc) m
      = m.filter (fun q => l.all (fun p => q.1 != p.1)) := by
  induction l generalizing m with
  | nil => simp
  | cons a tl ih =>
    rw [List.foldl_cons, ih]
    unfold dictErase
    rw [List.filter_filter]
    congr 1
    funext q
    simp [List.all_cons, Bool.and_comm]

lemma filter_not_own_key (l : List (ℕ × ℕ)) :
    l.filter (fun q => l.all (fun p => q.1 != p.1)) = [] := by
  rw [List.filter_eq_nil_iff]
  intro q hq
  simp only [List.all_eq_true, bne_iff_ne, ne_eq, not_forall]
  exact ⟨q, hq, by simp⟩

lemma foldl_sendNoteOff_true (l : List (ℕ × ℕ)) (st : AppState)
    (h : st.serialOpen = true) :
    (l.foldl (fun s p => sendNoteOff true s p.1 p.2) st).serialOpen = true ∧
    (l.foldl (fun s p => sendNoteOff true s p.1 p.2) st).written
      = st.written ++ l.map (fun p => MidiMessage.noteOff CHANNEL p.1 p.2) ∧
    (l.foldl (fun s p => sendNoteOff true s p.1 p.2) st).activeNotes
      = l.foldl (fun acc p => dictErase p.1 acc) st.activeNotes := by
  induction l generalizing st with
  | nil => simp [h]
  | cons a tl ih =>
    have hstep : sendNoteOff true st a.1 a.2 =
        { st with
          written := st.written ++ [MidiMessage.noteOff CHANNEL a.1 a.2],
          activeNotes := dictErase a.1 st.activeNotes } := by
      simp [sendNoteOff, h]
    obtain ⟨o, w, n⟩ := ih (sendNoteOff true st a.1 a.2) (by rw [hstep]; exact h)
    refine ⟨o, ?_, ?_⟩
    · rw [List.foldl_cons, w, hstep]
      simp
    · rw [List.foldl_cons, n, hstep]
      rw [List.foldl_cons]

/-- C10: the application maintains the active-note dictionary as an
invariant — a successfully written Note On records its note, a successfully
written Note Off removes it, and `on_closing` emits a Note Off for every
note still active (in snapshot order) before the transport is closed,
leaving no note sounding. -/
theorem active_notes_invariant :
    (∀ (st : AppState) note vel, st.serialOpen = true →
        (sendNoteOn true st note vel).activeNotes.lookup note = some vel ∧
        (sendNoteOn true st note vel).written
          = st.written ++ [MidiMessage.noteOn CHANNEL note vel]) ∧
    (∀ (st : AppState) note vel, st.serialOpen = true →
        (sendNoteOff true st note vel).activeNotes.lookup note = none ∧
        (sendNoteOff true st note vel).written
          = st.written ++ [MidiMessage.noteOff CHANNEL note vel]) ∧
    (∀ st : AppState, st.serialOpen = true →
        (onClosing st).serialOpen = false ∧
        (onClosing st).activeNotes = [] ∧
        (onClosing st).written
          = st.written ++ st.activeNotes.map (fun p => MidiMessage.noteOff CHANNEL p.1 p.2)) := by
  refine ⟨?_, ?_, ?_⟩
  · intro st note vel h
    constructor
    · simp only [sendNoteOn, h, if_true]
      exact lookup_dictInsert note vel st.activeNotes
    · simp [sendNoteOn, h]
  · intro st note vel h
    constructor
    · simp only [sendNoteOff, h, if_true]
      exact lookup_dictErase note st.activeNotes
    · simp [sendNoteOff, h]
  · intro st h
    obtain ⟨o, w, n⟩ := foldl_sendNoteOff_true st.activeNotes st h
    have hclose : onClosing st =
        { st.activeNotes.foldl (fun s p => sendNoteOff true s p.1 p.2) st with
          serialOpen := false } := by
      simp [onClosing, h]
    refine ⟨by rw [hclose], ?_, by rw [hclose]; exact w⟩
    rw [hclose]
    show (st.activeNotes.foldl (fun s p => sendNoteOff true s p.1 p.2) st).activeNotes = []
    rw [n, foldl_dictErase_eq_filter, filter_not_own_key]

/-- Witness for C10 on a concrete open state holding note 60. -/
theorem active_notes_invariant_witness :
    ((sendNoteOn true ⟨true, [], []⟩ 60 100).activeNotes.lookup 60 = some 100 ∧
      (sendNoteOn true ⟨true, [], []⟩ 60 100).written
        = [] ++ [MidiMessage.noteOn CHANNEL 60 100]) ∧
    ((sendNoteOff true ⟨true, [(60, 100)], []⟩ 60 64).activeNotes.lookup 60 = none ∧
      (sendNoteOff true ⟨true, [(60, 100)], []⟩ 60 64).written
        = [] ++ [MidiMessage.noteOff CHANNEL 60 64]) ∧
    ((onClosing ⟨true, [(60, 100)], []⟩).serialOpen = false ∧
      (onClosing ⟨true, [(60, 100)], []⟩).activeNotes = [] ∧
      (onClosing ⟨true, [(60, 100)], []⟩).written
        = [] ++ [(60, 100)].map (fun p => MidiMessage.noteOff CHANNEL p.1 p.2)) :=
  ⟨active_notes_invariant.1 ⟨true, [], []⟩ 60 100 rfl,
   active_notes_invariant.2.1 ⟨true, [(60, 100)], []⟩ 60 64 rfl,
   active_notes_invariant.2.2 ⟨true, [(60, 100)], []⟩ rfl⟩

end PCR300
